import Mathlib

/-!
Shallow embedding of src/realtime_fraud_server.py.

External collaborators (Python stdlib and libraries: ipaddress, geoip2
readers, urllib query parsing, hmac digest, SQL timestamp parsing) are
modelled as explicit oracle parameters; everything else is translated
directly from the source.  Machine state (the shopify_orders_marketing
table) is modelled as a list of rows, an SQL INSERT as an append, and
the two read queries (seen_before, burst) as list scans.
-/

namespace FraudServer

/-! ## String helpers (Python str.lower / str.strip / slicing / split / in) -/

/-- Python str.lower (ASCII). -/
def toLowerStr (s : String) : String := String.mk (s.data.map Char.toLower)

/-- Python str.strip(): drop leading and trailing whitespace. -/
def stripStr (s : String) : String :=
  String.mk (((s.data.dropWhile Char.isWhitespace).reverse.dropWhile Char.isWhitespace).reverse)

/-- Python slicing s[:n]. -/
def takeN (s : String) (n : Nat) : String := String.mk (s.data.take n)

/-- Whether the first list is an initial segment of the second. -/
def prefL : List Char → List Char → Bool
  | [], _ => true
  | _ :: _, [] => false
  | a :: as, b :: bs => a == b && prefL as bs

/-- Whether the first list occurs contiguously inside the second. -/
def subL (n : List Char) : List Char → Bool
  | [] => prefL n []
  | c :: cs => prefL n (c :: cs) || subL n cs

/-- Python substring test: needle in hay. -/
def strIn (needle hay : String) : Bool := subL needle.data hay.data

/-- Python str.startswith. -/
def startsW (s pre : String) : Bool := prefL pre.data s.data

/-- Split a character list at whitespace (keeping empty chunks). -/
def splitWsGo (cur : List Char) : List Char → List (List Char)
  | [] => [cur.reverse]
  | c :: cs =>
      if Char.isWhitespace c then cur.reverse :: splitWsGo [] cs
      else splitWsGo (c :: cur) cs

/-- Python str.split() with no argument: split on whitespace runs, no empties. -/
def pySplit (s : String) : List String :=
  ((splitWsGo [] s.data).map String.mk).filter (fun w => w ≠ "")

/-! ## Python dict model (string-keyed, insertion order kept, get/set only) -/

/-- Dict lookup d.get(k). -/
def getKey (d : List (String × String)) (k : String) : Option String :=
  (d.find? (fun p => p.1 == k)).map (fun p => p.2)

/-- Dict assignment d[k] = v: replace in place or append. -/
def setKey (d : List (String × String)) (k v : String) : List (String × String) :=
  match d with
  | [] => [(k, v)]
  | p :: rest => if p.1 == k then (k, v) :: rest else p :: setKey rest k v

/-- Python "a or b" on optional strings, where None and "" are falsy. -/
def pyOr (a b : Option String) : Option String :=
  match a with
  | some s => if s = "" then b else some s
  | none => b

/-! ## Configuration lists (lines 16-17 of the source) -/

def TELCOS : List String := ["jio", "airtel", "vodafone", "idea", "bsnl", "tata"]

def PLATFORMS : List String := ["meta", "facebook", "google", "whatsapp", "cloudflare", "amazon", "aws"]

/-! ## Helpers (source lines 63-78) -/

/-- Source clean(x): str(x).strip() if x else None. -/
def clean (x : Option String) : Option String :=
  match x with
  | none => none
  | some s => if s = "" then none else some (stripStr s)

/-- Source digits(x): join of the digit characters if x is truthy, else None. -/
def digits (x : Option String) : Option String :=
  match x with
  | none => none
  | some s => if s = "" then none else some (String.mk (s.data.filter Char.isDigit))

/-- One note attribute entry of the order payload. -/
structure NoteAttr where
  name : Option String
  value : Option String
deriving DecidableEq

/-- Key normalization in parse_notes: lower-case, spaces to underscores. -/
def normKey (s : String) : String :=
  String.mk ((toLowerStr s).data.map (fun c => if c == ' ' then '_' else c))

/-- Source parse_notes: fold attributes into a dict, dropping empty values. -/
def parse_notes (attrs : List NoteAttr) : List (String × String) :=
  attrs.foldl
    (fun out a =>
      let k := normKey (a.name.getD "")
      match clean a.value with
      | some v => if v = "" then out else setKey out k v
      | none => out)
    []

/-- Source extract_utms, with the stdlib urlparse+parse_qs step (first value
per key) supplied as the oracle urlq; keeps only utm_-prefixed keys. -/
def extract_utms (urlq : String → List (String × String)) (url : Option String) :
    List (String × String) :=
  match url with
  | none => []
  | some u => if u = "" then [] else (urlq u).filter (fun p => startsW p.1 "utm_")

/-! ## Geo resolver (source lines 80-92) -/

/-- City-database record: country name and most specific subdivision name. -/
structure CityRec where
  country : Option String
  subdiv : Option String

/-- ASN-database record: autonomous-system organization, possibly null. -/
structure AsnRec where
  org : Option String

/-- External collaborators: IP literal validation, the two GeoIP readers
(none models a raised lookup error), and URL query parsing. -/
structure Oracles where
  parseIp : String → Bool
  city : String → Option CityRec
  asn : String → Option AsnRec
  urlq : String → List (String × String)

/-- The geo signal dict built by the source geo function. -/
structure GeoSignal where
  country : Option String
  state : Option String
  org : String
deriving DecidableEq

/-- Source geo(ip): validate the IP, look it up in both readers; any failure
(absent IP, invalid literal, reader exception) yields None. -/
def geo (O : Oracles) (ip : Option String) : Option GeoSignal :=
  match ip with
  | none => none
  | some s =>
      if O.parseIp s then
        match O.city s, O.asn s with
        | some c, some a =>
            some { country := c.country, state := c.subdiv, org := toLowerStr (a.org.getD "") }
        | _, _ => none
      else none

/-! ## Persisted rows (INSERT_SQL column set, lines 40-54 and 136-172) -/

/-- The 30 fields produced by build_row. -/
structure RowCore where
  row_id : String
  date : String
  date_time : String
  order_id : String
  order_name : Option String
  customer_name : Option String
  phone : Option String
  address1 : Option String
  address2 : Option String
  city : Option String
  state : Option String
  zip : Option String
  country : Option String
  product_id : String
  variant_id : String
  product_name : Option String
  variant_name : Option String
  vendor : Option String
  price : Option String
  quantity : Option Int
  weight : Option Int
  utm_source : Option String
  utm_medium : Option String
  utm_campaign : Option String
  utm_content : Option String
  utm_term : Option String
  utm_id : Option String
  full_url : Option String
  ip_address : Option String
  store_name : String
deriving DecidableEq

/-- A full persisted row: build_row output plus the four fields the webhook
handler stamps on before the INSERT. -/
structure Row where
  core : RowCore
  location_match : Bool
  ip_checked : Bool
  fraud_bucket : String
  risk_score : Nat
deriving DecidableEq

/-! ## HMAC verification (source lines 57-61) -/

/-- Source verify(data, hmac_header): reject falsy headers, else compare the
base64 HMAC-SHA256 digest (supplied as the oracle mac) with the header. -/
def verify (mac : String → String) (data : String) (hmacHeader : Option String) : Bool :=
  match hmacHeader with
  | none => false
  | some h => if h = "" then false else mac data == h

/-! ## Fraud brain (source lines 94-133) -/

/-- Source seen_before(field, value): falsy values are never seen; otherwise
scan the table for a row whose field equals the value. -/
def seen_before (proj : Row → Option String) (v : Option String) (st : List Row) : Bool :=
  match v with
  | none => false
  | some s => if s = "" then false else st.any (fun r => proj r == some s)

/-- Number of rows whose date_time falls inside the trailing 2-minute window;
ts is the SQL timestamp interpretation of the stored string. -/
def windowCount (ts : String → Int) (st : List Row) (now : Int) : Nat :=
  (st.filter (fun r => decide (now - 120 < ts r.core.date_time))).length

/-- Source burst(): strictly more than 12 rows in the trailing window. -/
def burst (ts : String → Int) (st : List Row) (now : Int) : Bool :=
  decide (windowCount ts st now > 12)

/-- Source address_entropy(addr): 0 on the empty string, else the ratio of
distinct lower-cased whitespace tokens to total tokens. -/
def address_entropy (addr : String) : ℚ :=
  if addr = "" then 0
  else
    let words := pySplit (toLowerStr addr)
    mkRat (words.eraseDups.length : Int) (max words.length 1)

/-- Telecom-carrier token test against the resolved organization. -/
def telcoHit (org : String) : Bool := TELCOS.any (fun t => strIn t org)

/-- Hosting/social-platform token test against the resolved organization. -/
def platformHit (org : String) : Bool := PLATFORMS.any (fun p => strIn p org)

/-- Social-platform UTM source test: utm in ["facebook", "instagram"]. -/
def socialUtm (utm : Option String) : Bool :=
  utm == some "facebook" || utm == some "instagram"

/-- The organization string used by classify: ipg.get("org","") if ipg else "". -/
def orgOf (ipg : Option GeoSignal) : String :=
  match ipg with
  | some g => g.org
  | none => ""

/-- The concatenated address built in classify (line 124). -/
def addrOf (note : List (String × String)) : String :=
  ((getKey note "address1").getD "") ++ " " ++ ((getKey note "address2").getD "")

/-- The country-mismatch condition of classify (line 127): stated country
truthy, geo signal present, lower-cased names differ. -/
def countryMismatch (note : List (String × String)) (ipg : Option GeoSignal) : Bool :=
  match getKey note "country", ipg with
  | some c, some g => c != "" && toLowerStr c != toLowerStr (g.country.getD "")
  | _, _ => false

/-- The bucket thresholds at the end of classify (lines 130-133). -/
def bucketOf (risk : Nat) : String :=
  if risk ≥ 80 then "REAL_FRAUD"
  else if risk ≥ 60 then "TELECOM"
  else if risk ≥ 30 then "PLATFORM"
  else "CLEAN"

/-- Source classify(note, utm, ipg): the additive risk scorer.  Each
sequential "risk += w if cond" becomes one summand; st, ts, now model the
database state read by seen_before and burst. -/
def classify (note : List (String × String)) (utm : Option String)
    (ipg : Option GeoSignal) (st : List Row) (ts : String → Int) (now : Int) :
    String × Nat :=
  let org := orgOf ipg
  let risk : Nat :=
    (if telcoHit org then 10 else 0)
    + (if platformHit org then 15 else 0)
    + (if socialUtm utm then 15 else 0)
    + (if seen_before (fun r => r.core.ip_address) (getKey note "ip_address") st then 25 else 0)
    + (if seen_before (fun r => r.core.phone) (getKey note "phone") st then 35 else 0)
    + (if burst ts st now then 30 else 0)
    + (if address_entropy (addrOf note) < mkRat 1 2 then 20 else 0)
    + (if countryMismatch note ipg then 40 else 0)
  (bucketOf risk, risk)

/-- Modelled from the spec wording of the hosting/platform rule ("If it
contains any token from a configured hosting/social-platform name list, or
the normalized UTM source is a social-platform name: +15"): identical to
classify except that the two platform sub-conditions form one disjunctive
rule contributing a single +15.  Used only to compare against classify. -/
def classifySpecDisjunctive (note : List (String × String)) (utm : Option String)
    (ipg : Option GeoSignal) (st : List Row) (ts : String → Int) (now : Int) :
    String × Nat :=
  let org := orgOf ipg
  let risk : Nat :=
    (if telcoHit org then 10 else 0)
    + (if platformHit org || socialUtm utm then 15 else 0)
    + (if seen_before (fun r => r.core.ip_address) (getKey note "ip_address") st then 25 else 0)
    + (if seen_before (fun r => r.core.phone) (getKey note "phone") st then 35 else 0)
    + (if burst ts st now then 30 else 0)
    + (if address_entropy (addrOf note) < mkRat 1 2 then 20 else 0)
    + (if countryMismatch note ipg then 40 else 0)
  (bucketOf risk, risk)

/-! ## Flattener (source lines 135-172) -/

/-- One line item of the order payload.  Bracket-indexed fields (product_id,
variant_id) are required; .get fields are optional. -/
structure LineItem where
  product_id : String
  variant_id : String
  title : Option String
  variant_title : Option String
  vendor : Option String
  price : Option String
  quantity : Option Int
  grams : Option Int
deriving DecidableEq

/-- The order payload fields the handler reads.  id, created_at and
line_items are bracket-indexed in the source and hence required. -/
structure Order where
  id : String
  name : Option String
  created_at : String
  note_attributes : List NoteAttr
  landing_site_ref : Option String
  landing_site : Option String
  line_items : List LineItem
deriving DecidableEq

/-- Source build_row(order, li, store): one flattened record per line item;
urlq is the URL query-parsing collaborator used by extract_utms. -/
def build_row (urlq : String → List (String × String)) (order : Order)
    (li : LineItem) (store : String) : RowCore :=
  let note := parse_notes order.note_attributes
  let landing := pyOr order.landing_site_ref order.landing_site
  let utms := extract_utms urlq landing
  { row_id := store ++ "_" ++ order.id ++ "_" ++ li.product_id ++ "_" ++ li.variant_id
    date := takeN order.created_at 10
    date_time := order.created_at
    order_id := order.id
    order_name := order.name
    customer_name := getKey note "full_name"
    phone := digits (getKey note "phone")
    address1 := getKey note "house_no._&_colony/apartment"
    address2 := getKey note "nearby_school,_hospital,_shop"
    city := getKey note "city"
    state := getKey note "state"
    zip := digits (getKey note "zip_code")
    country := getKey note "country"
    product_id := li.product_id
    variant_id := li.variant_id
    product_name := li.title
    variant_name := li.variant_title
    vendor := li.vendor
    price := li.price
    quantity := li.quantity
    weight := li.grams
    utm_source := pyOr (getKey note "utm_source") (getKey utms "utm_source")
    utm_medium := pyOr (getKey note "utm_medium") (getKey utms "utm_medium")
    utm_campaign := pyOr (getKey note "utm_campaign") (getKey utms "utm_campaign")
    utm_content := pyOr (getKey note "utm_content") (getKey utms "utm_content")
    utm_term := pyOr (getKey note "utm_term") (getKey utms "utm_term")
    utm_id := getKey note "utm_id"
    full_url := pyOr (getKey note "full_url") landing
    ip_address := getKey note "ip_address"
    store_name := store }

/-! ## Webhook handler (source lines 174-200) -/

/-- Request outcome: 401 on bad HMAC, a raised error on a payload missing
the required structure, 200 with inserts otherwise. -/
inductive Outcome where
  | unauthorized
  | malformed
  | ok
deriving DecidableEq

/-- Source shopify handler: verify the HMAC over the raw bytes, default the
store header, normalize signals, resolve geo, classify once, then append one
row per line item (each INSERT modelled as an append to the table). -/
def shopify (O : Oracles) (mac : String → String) (raw : String)
    (hmacHeader shopHeader : Option String) (body : Option Order)
    (st : List Row) (ts : String → Int) (now : Int) : Outcome × List Row :=
  if verify mac raw hmacHeader then
    match body with
    | none => (Outcome.malformed, st)
    | some order =>
        let store := match shopHeader with
          | some s => if s = "" then "unknown" else s
          | none => "unknown"
        let note := parse_notes order.note_attributes
        let landing := pyOr order.landing_site_ref order.landing_site
        let utm := pyOr (getKey note "utm_source") (getKey (extract_utms O.urlq landing) "utm_source")
        let ip := getKey note "ip_address"
        let ipg := geo O ip
        let bs := classify note utm ipg st ts now
        let rows := order.line_items.map (fun li =>
          { core := build_row O.urlq order li store
            location_match := false
            ip_checked := ipg.isSome
            fraud_bucket := bs.1
            risk_score := bs.2 : Row })
        (Outcome.ok, st ++ rows)
  else (Outcome.unauthorized, st)

/-! ## Concrete fixtures used by witnesses and counterexamples -/

/-- Timestamp interpretation mapping every stored string to instant 0. -/
def ts0 : String → Int := fun _ => 0

/-- Oracle bundle: every IP invalid, both readers miss, empty query strings. -/
def O0 : Oracles :=
  { parseIp := fun _ => false, city := fun _ => none, asn := fun _ => none, urlq := fun _ => [] }

/-- HMAC collaborator signing every byte string as "sig". -/
def mac0 : String → String := fun _ => "sig"

def li0 : LineItem :=
  { product_id := "p1", variant_id := "v1", title := none, variant_title := none,
    vendor := none, price := none, quantity := none, grams := none }

def li1 : LineItem :=
  { product_id := "p1", variant_id := "v2", title := none, variant_title := none,
    vendor := none, price := none, quantity := none, grams := none }

def order0 : Order :=
  { id := "o1", name := none, created_at := "2024-01-01T00:00:00",
    note_attributes := [], landing_site_ref := none, landing_site := none,
    line_items := [li0] }

def blankCore : RowCore :=
  { row_id := "r0", date := "2024-01-01", date_time := "2024-01-01T00:00:00",
    order_id := "o0", order_name := none, customer_name := none, phone := none,
    address1 := none, address2 := none, city := none, state := none, zip := none,
    country := none, product_id := "p0", variant_id := "v0", product_name := none,
    variant_name := none, vendor := none, price := none, quantity := none,
    weight := none, utm_source := none, utm_medium := none, utm_campaign := none,
    utm_content := none, utm_term := none, utm_id := none, full_url := none,
    ip_address := none, store_name := "s0" }

def blankRow : Row :=
  { core := blankCore, location_match := false, ip_checked := false,
    fraud_bucket := "CLEAN", risk_score := 0 }

/-- A table snapshot holding 12 prior rows inside the burst window. -/
def st12 : List Row := List.replicate 12 blankRow

/-- A table snapshot holding 13 prior rows inside the burst window. -/
def st13 : List Row := List.replicate 13 blankRow

/-- Geo signal resolving the United States with a blank organization. -/
def geoUS : GeoSignal := { country := some "United States", state := none, org := "" }

/-- Geo signal whose organization carries a platform token. -/
def geoFB : GeoSignal := { country := none, state := none, org := "facebook inc" }

/-- Normalized signals of an order whose only note attribute states India. -/
def noteIndia : List (String × String) :=
  parse_notes [{ name := some "Country", value := some "India" }]

/-- Stated country India together with a two-token distinct address. -/
def noteIndiaAddr : List (String × String) := [("country", "India"), ("address1", "ab cd")]

/-- The row the handler persists for order0 and line item li0 at store "shop". -/
def r0 : Row :=
  { core := build_row O0.urlq order0 li0 "shop", location_match := false,
    ip_checked := false, fraud_bucket := "CLEAN", risk_score := 20 }

/-! ## Helper lemmas -/

theorem getKey_setKey_self (d : List (String × String)) (k v : String) :
    getKey (setKey d k v) k = some v := by
  induction d with
  | nil => simp [getKey, setKey, List.find?]
  | cons p rest ih =>
      by_cases h : p.1 == k
      · simp [getKey, setKey, h, List.find?]
      · simp only [setKey, h, if_false, Bool.false_eq_true]
        simpa [getKey, List.find?, h] using ih

theorem getKey_setKey_ne (d : List (String × String)) (k k' v : String) (h : k' ≠ k) :
    getKey (setKey d k v) k' = getKey d k' := by
  have hkk : (k == k') = false := by
    simp only [beq_eq_false_iff_ne, ne_eq]
    exact fun hk => h hk.symm
  induction d with
  | nil => simp [getKey, setKey, List.find?, hkk]
  | cons p rest ih =>
      by_cases hp : p.1 == k
      · have hp1 : p.1 = k := by simpa using hp
        have hpk' : (p.1 == k') = false := by
          simp only [beq_eq_false_iff_ne, ne_eq, hp1]
          exact fun hk => h hk.symm
        simp [getKey, setKey, hp, List.find?, hkk, hpk']
      · by_cases hq : p.1 == k'
        · simp [getKey, setKey, hp, List.find?, hq]
        · simp only [setKey, hp, if_false, Bool.false_eq_true]
          simpa [getKey, List.find?, hq] using ih

theorem strData_append (a b : String) : (a ++ b).data = a.data ++ b.data := by
  cases a
  cases b
  rfl

theorem strAppend_cancel_left {a b c : String} (h : a ++ b = a ++ c) : b = c := by
  have hd := congrArg String.data h
  rw [strData_append, strData_append] at hd
  have hl := List.append_cancel_left hd
  cases b
  cases c
  exact congrArg String.mk hl

/-! ## Claims -/

/-- Claim C1, counterexample: with stated country India, resolved country
United States, and every other listed signal absent (blank organization, no
social UTM, empty table, hence 0 rows in the burst window and nothing seen
before) but no address lines, classify returns ("TELECOM", 60), not
("CLEAN", 40): the low-entropy +20 fires on the empty address and 60 lands
in the TELECOM bucket. -/
theorem C1_scenarioB_ce :
    classify noteIndia none (some geoUS) [] ts0 0 = ("TELECOM", 60) ∧
    classify noteIndia none (some geoUS) [] ts0 0 ≠ ("CLEAN", 40) :=
  ⟨by decide, by decide⟩

/-- Claim C1 (amended): under the listed absent signals and additionally an
address whose entropy is at least 1/2 (so the low-entropy bonus does not
fire), a stated country India against a resolved country United States gives
score exactly 40 — but the bucket is PLATFORM (40 ≥ 30), not CLEAN. -/
theorem C1_scenarioB_amended (note : List (String × String)) (utm : Option String)
    (ipg : Option GeoSignal) (st : List Row) (ts : String → Int) (now : Int) (g : GeoSignal)
    (hg : ipg = some g) (hc : getKey note "country" = some "India")
    (hgc : g.country = some "United States")
    (ht : telcoHit g.org = false) (hp : platformHit g.org = false)
    (hu : socialUtm utm = false)
    (hip : seen_before (fun r => r.core.ip_address) (getKey note "ip_address") st = false)
    (hph : seen_before (fun r => r.core.phone) (getKey note "phone") st = false)
    (hw : windowCount ts st now ≤ 12)
    (he : ¬ address_entropy (addrOf note) < mkRat 1 2) :
    classify note utm ipg st ts now = ("PLATFORM", 40) := by
  subst hg
  have hb : burst ts st now = false := by
    unfold burst
    simp only [decide_eq_false_iff_not]
    omega
  have hm : countryMismatch note (some g) = true := by
    simp only [countryMismatch, hc, hgc]
    decide
  simp only [classify, orgOf, ht, hp, hu, hip, hph, hb, hm, if_neg he]
  norm_num [bucketOf]

/-- Witness for C1_scenarioB_amended at a concrete input. -/
theorem C1_scenarioB_amended_w :
    classify noteIndiaAddr none (some geoUS) [] ts0 0 = ("PLATFORM", 40) :=
  C1_scenarioB_amended noteIndiaAddr none (some geoUS) [] ts0 0 geoUS rfl
    (by decide) (by decide) (by decide) (by decide) (by decide) (by decide)
    (by decide) (by decide) (by decide)

/-- Claim C2, counterexample: when both sub-conditions hold (organization
"facebook inc" and UTM source "facebook"), the implemented classify scores
50 (15 + 15 + 20 low-entropy) while the spec-worded single disjunctive rule
would score 35 — the two rules contribute 30, not 15. -/
theorem C2_platform_rule_ce :
    classify [] (some "facebook") (some geoFB) [] ts0 0 = ("PLATFORM", 50) ∧
    classifySpecDisjunctive [] (some "facebook") (some geoFB) [] ts0 0 = ("PLATFORM", 35) :=
  ⟨by decide, by decide⟩

/-- Claim C2 (amended): the platform-organization test and the social-UTM
test are two independent +15 rules; on every input the implemented score
exceeds the spec's disjunctive-rule score by exactly 15 when both
sub-conditions hold simultaneously, and matches it otherwise. -/
theorem C2_platform_rule_amended (note : List (String × String)) (utm : Option String)
    (ipg : Option GeoSignal) (st : List Row) (ts : String → Int) (now : Int) :
    (classify note utm ipg st ts now).2 =
      (classifySpecDisjunctive note utm ipg st ts now).2 +
        (if platformHit (orgOf ipg) && socialUtm utm then 15 else 0) := by
  simp only [classify, classifySpecDisjunctive]
  cases hp : platformHit (orgOf ipg) <;> cases hu : socialUtm utm <;>
    simp only [hp, hu, Bool.and_self, Bool.and_true, Bool.and_false,
      Bool.or_self, Bool.or_true, Bool.or_false, if_true, if_false] <;> omega

/-- Claim C3, counterexample: with exactly 12 prior rows recorded in the
trailing 2-minute window (the 13th event), burst is false — count 12 is not
strictly greater than 12 — so classify adds no +30: on an otherwise blank
event the score is the entropy-only 20, not 50. -/
theorem C3_burst_13th_ce :
    windowCount ts0 st12 0 = 12 ∧ burst ts0 st12 0 = false ∧
    classify [] none none st12 ts0 0 = ("CLEAN", 20) :=
  ⟨by decide, by decide, by decide⟩

/-- Claim C3 (amended): the +30 burst bonus requires strictly more than 12
prior rows in the window: an event evaluated over 13 prior in-window rows
scores exactly 30 more than the same event over 12 prior in-window rows
(other historical signals unchanged); with 12 prior rows the bonus is absent. -/
theorem C3_burst_boundary_amended (note : List (String × String)) (utm : Option String)
    (ipg : Option GeoSignal) (ts : String → Int) (st₁ st₂ : List Row) (now : Int)
    (h13 : windowCount ts st₁ now = 13) (h12 : windowCount ts st₂ now = 12)
    (hip : seen_before (fun r => r.core.ip_address) (getKey note "ip_address") st₁ =
      seen_before (fun r => r.core.ip_address) (getKey note "ip_address") st₂)
    (hph : seen_before (fun r => r.core.phone) (getKey note "phone") st₁ =
      seen_before (fun r => r.core.phone) (getKey note "phone") st₂) :
    (classify note utm ipg st₁ ts now).2 = (classify note utm ipg st₂ ts now).2 + 30 := by
  have hb1 : burst ts st₁ now = true := by simp [burst, h13]
  have hb2 : burst ts st₂ now = false := by simp [burst, h12]
  simp [classify, hb1, hb2, hip, hph]
  omega

/-- Witness for C3_burst_boundary_amended: 13 versus 12 blank in-window rows. -/
theorem C3_burst_boundary_amended_w :
    (classify [] none none st13 ts0 0).2 = (classify [] none none st12 ts0 0).2 + 30 :=
  C3_burst_boundary_amended [] none none ts0 st13 st12 0 (by decide) (by decide) rfl rfl

/-- Claim C4, counterexample: with no note attributes and an unparseable IP
the GeoSignal is indeed absent, but the additive score over an empty store
is 20 — the low-entropy rule fires on the empty address — not 0. -/
theorem C4_scenarioA_ce :
    geo O0 (some "not-an-ip") = none ∧
    classify (parse_notes []) none none [] ts0 0 = ("CLEAN", 20) ∧
    (classify (parse_notes []) none none [] ts0 0).2 ≠ 0 :=
  ⟨by decide, by decide, by decide⟩

/-- Claim C4 (amended): for an event with an empty note-attribute list and a
client IP that fails IP-literal validation (or no IP at all), geo returns an
absent signal, and classify against an empty store returns score 20 and
bucket CLEAN — the +20 low-entropy bonus on the empty address being the only
contribution — provided the landing-derived UTM source is not a
social-platform name. -/
theorem C4_scenarioA_amended (O : Oracles) (ip : String) (utm : Option String)
    (ts : String → Int) (now : Int)
    (hip : O.parseIp ip = false) (hu : socialUtm utm = false) :
    geo O (some ip) = none ∧ geo O none = none ∧
    classify (parse_notes []) utm (geo O (some ip)) [] ts now = ("CLEAN", 20) := by
  have hg : geo O (some ip) = none := by simp [geo, hip]
  refine ⟨hg, rfl, ?_⟩
  rw [hg]
  have hb : burst ts ([] : List Row) now = false := by simp [burst, windowCount]
  simp only [classify, orgOf, hu, hb]
  decide

/-- Witness for C4_scenarioA_amended at a concrete unparseable IP. -/
theorem C4_scenarioA_amended_w :
    geo O0 (some "999.999") = none ∧ geo O0 none = none ∧
    classify (parse_notes []) none (geo O0 (some "999.999")) [] ts0 0 = ("CLEAN", 20) :=
  C4_scenarioA_amended O0 "999.999" none ts0 0 (by decide) (by decide)

/-- Claim C5: when both address lines are absent or empty, the concatenated
address built in classify has entropy 0, and the +20 low-entropy bonus is
added: the score is exactly 20 more than for the same event carrying a
two-distinct-token address line (which scores no entropy bonus). -/
theorem C5_empty_address (note : List (String × String)) (utm : Option String)
    (ipg : Option GeoSignal) (st : List Row) (ts : String → Int) (now : Int)
    (h1 : getKey note "address1" = none ∨ getKey note "address1" = some "")
    (h2 : getKey note "address2" = none ∨ getKey note "address2" = some "") :
    address_entropy (addrOf note) = 0 ∧
    (classify note utm ipg st ts now).2 =
      (classify (setKey note "address1" "ab cd") utm ipg st ts now).2 + 20 := by
  have ha : (getKey note "address1").getD "" = "" := by rcases h1 with h | h <;> simp [h]
  have hb : (getKey note "address2").getD "" = "" := by rcases h2 with h | h <;> simp [h]
  have haddr : addrOf note = " " := by
    unfold addrOf
    rw [ha, hb]
    decide
  have g2 : getKey (setKey note "address1" "ab cd") "address2" = getKey note "address2" :=
    getKey_setKey_ne note "address1" "address2" "ab cd" (by decide)
  have haddr' : addrOf (setKey note "address1" "ab cd") = "ab cd " := by
    unfold addrOf
    rw [getKey_setKey_self, g2, hb]
    decide
  have hi : getKey (setKey note "address1" "ab cd") "ip_address" = getKey note "ip_address" :=
    getKey_setKey_ne note "address1" "ip_address" "ab cd" (by decide)
  have hp : getKey (setKey note "address1" "ab cd") "phone" = getKey note "phone" :=
    getKey_setKey_ne note "address1" "phone" "ab cd" (by decide)
  have hc : getKey (setKey note "address1" "ab cd") "country" = getKey note "country" :=
    getKey_setKey_ne note "address1" "country" "ab cd" (by decide)
  have hcm : countryMismatch (setKey note "address1" "ab cd") ipg = countryMismatch note ipg := by
    unfold countryMismatch
    rw [hc]
  have he : address_entropy (addrOf note) < mkRat 1 2 := by
    rw [haddr]
    decide
  have he' : ¬ address_entropy (addrOf (setKey note "address1" "ab cd")) < mkRat 1 2 := by
    rw [haddr']
    decide
  constructor
  · rw [haddr]
    decide
  · simp only [classify, hi, hp, hcm, if_pos he, if_neg he']
    omega

/-- Witness for C5_empty_address on the empty signal dict. -/
theorem C5_empty_address_w :
    address_entropy (addrOf ([] : List (String × String))) = 0 ∧
    (classify [] none none [] ts0 0).2 =
      (classify (setKey [] "address1" "ab cd") none none [] ts0 0).2 + 20 :=
  C5_empty_address [] none none [] ts0 0 (Or.inl rfl) (Or.inl rfl)

/-- Claim C6, code evaluation at the failing input: delivering the same
signed payload (order0, one line item, store header "shop") twice runs a
plain INSERT per line item with no conflict handling, so the persisted
collection ends up holding two rows with the identical row identifier
"shop_o1_p1_v1" — the second insert is an append, not a no-op. -/
theorem C6_redelivery_duplicates :
    ((shopify O0 mac0 "raw" (some "sig") (some "shop") (some order0)
        (shopify O0 mac0 "raw" (some "sig") (some "shop") (some order0) [] ts0 0).2
        ts0 0).2.filter
      (fun r => r.core.row_id == "shop_o1_p1_v1")).length = 2 := by
  decide

/-- Claim C7: every row the webhook handler appends to the store has its
location_match field equal to false, regardless of stated or resolved
countries — any row of the post-state is either a pre-existing row or
carries location_match = false. -/
theorem C7_location_match_false (O : Oracles) (mac : String → String) (raw : String)
    (hh sh : Option String) (body : Option Order) (st : List Row) (ts : String → Int)
    (now : Int) (r : Row)
    (hr : r ∈ (shopify O mac raw hh sh body st ts now).2) :
    r ∈ st ∨ r.location_match = false := by
  unfold shopify at hr
  by_cases hv : verify mac raw hh
  · rw [if_pos hv] at hr
    cases body with
    | none => exact Or.inl hr
    | some order =>
        dsimp only at hr
        rcases List.mem_append.mp hr with h | h
        · exact Or.inl h
        · rcases List.mem_map.mp h with ⟨li, _, rfl⟩
          exact Or.inr rfl
  · rw [if_neg hv] at hr
    exact Or.inl hr

/-- Witness for C7_location_match_false: the row persisted for order0. -/
theorem C7_location_match_false_w : r0 ∈ ([] : List Row) ∨ r0.location_match = false :=
  C7_location_match_false O0 mac0 "raw" (some "sig") (some "shop") (some order0) [] ts0 0 r0
    (by decide)

/-- Claim C8, counterexample: digits applied to "abc" (a present value with
no digit characters) returns the empty string, not an absent value. -/
theorem C8_digits_ce :
    digits (some "abc") = some "" ∧ (some "" : Option String) ≠ none :=
  ⟨by decide, by decide⟩

/-- Claim C8 (amended): for every nonempty input string, digits returns
exactly the subsequence of its digit characters in order (possibly the empty
string, never an absent value); the result is absent exactly when the input
itself is absent or the empty string. -/
theorem C8_digits_amended (s : String) (h : s ≠ "") :
    digits (some s) = some (String.mk (s.data.filter Char.isDigit))
    ∧ (s.data.filter Char.isDigit).Sublist s.data
    ∧ (∀ c ∈ s.data.filter Char.isDigit, c.isDigit = true)
    ∧ digits none = none ∧ digits (some "") = none := by
  refine ⟨by simp [digits, h], List.filter_sublist s.data, ?_, rfl, by decide⟩
  intro c hc
  exact (List.mem_filter.mp hc).2

/-- Witness for C8_digits_amended on the mixed input "a1b2". -/
theorem C8_digits_amended_w :
    digits (some "a1b2") = some (String.mk ("a1b2".data.filter Char.isDigit)) :=
  (C8_digits_amended "a1b2" (by decide)).1

/-- Claim C9: the handler answers unauthorized exactly when HMAC
verification over the raw bytes fails (header missing, empty, or
mismatched), and in that case the persisted state is returned unchanged and
nothing about the body is consulted. -/
theorem C9_hmac_gate (O : Oracles) (mac : String → String) (raw : String)
    (hh sh : Option String) (body : Option Order) (st : List Row) (ts : String → Int)
    (now : Int) :
    ((shopify O mac raw hh sh body st ts now).1 = Outcome.unauthorized ↔
      verify mac raw hh = false)
    ∧ (verify mac raw hh = false →
      shopify O mac raw hh sh body st ts now = (Outcome.unauthorized, st)) := by
  unfold shopify
  by_cases hv : verify mac raw hh
  · rw [if_pos hv]
    cases body with
    | none => simp [hv]
    | some order => simp [hv]
  · rw [if_neg hv]
    simp only [Bool.not_eq_true] at hv
    simp [hv]

/-- Witness for C9_hmac_gate: a missing signature header is rejected with no
state change. -/
theorem C9_hmac_gate_w :
    shopify O0 mac0 "x" none none (some order0) [] ts0 0 = (Outcome.unauthorized, []) :=
  (C9_hmac_gate O0 mac0 "x" none none (some order0) [] ts0 0).2 (by decide)

/-- Claim C10: the row identifier is a pure function of store, order id,
product id and variant id — equal inputs yield equal identifiers — and for
a fixed order and store, two line items agreeing on product id but
differing in variant id yield different identifiers. -/
theorem C10_row_identifier (urlq : String → List (String × String)) (o o' : Order)
    (li li' : LineItem) (s s' : String)
    (hs : s = s') (ho : o.id = o'.id) (hp : li.product_id = li'.product_id) :
    (li.variant_id = li'.variant_id →
      (build_row urlq o li s).row_id = (build_row urlq o' li' s').row_id)
    ∧ (li.variant_id ≠ li'.variant_id →
      (build_row urlq o li s).row_id ≠ (build_row urlq o li' s).row_id) := by
  have rid : ∀ (oo : Order) (l : LineItem) (ss : String),
      (build_row urlq oo l ss).row_id =
        ss ++ "_" ++ oo.id ++ "_" ++ l.product_id ++ "_" ++ l.variant_id :=
    fun _ _ _ => rfl
  constructor
  · intro hv
    rw [rid, rid, hs, ho, hp, hv]
  · intro hv heq
    rw [rid, rid, hp] at heq
    exact hv (strAppend_cancel_left heq)

/-- Witness for C10_row_identifier: line items sharing product p1 with
variants v1 and v2 produce distinct identifiers. -/
theorem C10_row_identifier_w :
    (build_row O0.urlq order0 li0 "shop").row_id ≠
      (build_row O0.urlq order0 li1 "shop").row_id :=
  (C10_row_identifier O0.urlq order0 order0 li0 li1 "shop" "shop" rfl rfl rfl).2 (by decide)

end FraudServer
